import Mathlib

/-!
Verification of the Neo4jXRay schema-inference and rendering pipeline.

The Python sources (`data_extractor.py`, `er_diagram_generator.py`,
`report_generator.py`, `neo4j_xray.py`) are shallowly embedded below.
The query executor (`db_connector.py`, a thin wrapper over the external
Neo4j driver) is abstracted as a pair of functions from query text and
parameters to results; introspection values are modelled by the closed
`Value` type of property-graph value kinds.
-/

namespace Neo4jXRay

/-- The closed set of value kinds a query result cell can hold.
Floats carry their printed form only; no claim computes with them. -/
inductive Value where
  | vnull : Value
  | vbool : Bool → Value
  | vint : Int → Value
  | vfloat : String → Value
  | vstr : String → Value
  | vlist : List Value → Value
  | vmap : List (String × Value) → Value

/-- Python `v is None`. -/
def pyIsNone : Value → Bool
  | .vnull => true
  | _ => false

/-- A query-result record (`record.data()` in the driver): a Python dict,
modelled as an association list in insertion order. -/
abbrev Record := List (String × Value)

/-- Python `type(v).__name__` on an embedded value. -/
def pyTypeName : Value → String
  | .vnull => "NoneType"
  | .vbool _ => "bool"
  | .vint _ => "int"
  | .vfloat _ => "float"
  | .vstr _ => "str"
  | .vlist _ => "list"
  | .vmap _ => "dict"

mutual
/-- Python `repr(v)` for the embedded value kinds (strings rendered with
single quotes; quote-escaping inside strings is not modelled). -/
def pyRepr : Value → String
  | .vnull => "None"
  | .vbool true => "True"
  | .vbool false => "False"
  | .vint n => toString n
  | .vfloat s => s
  | .vstr s => "'" ++ s ++ "'"
  | .vlist l => "[" ++ pyReprList l ++ "]"
  | .vmap m => "\x7b" ++ pyReprPairs m ++ "\x7d"

/-- Comma-joined reprs of the elements of a Python list. -/
def pyReprList : List Value → String
  | [] => ""
  | [v] => pyRepr v
  | v :: rest => pyRepr v ++ ", " ++ pyReprList rest

/-- Comma-joined `key: value` reprs of a Python dict. -/
def pyReprPairs : List (String × Value) → String
  | [] => ""
  | [(k, v)] => "'" ++ k ++ "': " ++ pyRepr v
  | (k, v) :: rest => "'" ++ k ++ "': " ++ pyRepr v ++ ", " ++ pyReprPairs rest
end

/-- Python `str(v)`: identity on strings, `repr` otherwise. -/
def pyStr : Value → String
  | .vstr s => s
  | v => pyRepr v

/-- Python dict lookup `d[k]` as an option (`None` when the key is absent). -/
def pyLookup {α : Type} (k : String) : List (String × α) → Option α
  | [] => none
  | (k', v) :: rest => if k' = k then some v else pyLookup k rest

/-- Python `d.get(k, default)`. -/
def pyGet {α : Type} (d : List (String × α)) (k : String) (dflt : α) : α :=
  match pyLookup k d with
  | some v => v
  | none => dflt

/-- Python dict assignment `d[k] = v`: replaces the value of an existing
key in place, otherwise appends the new key at the end. -/
def pyDictInsert {α : Type} : List (String × α) → String → α → List (String × α)
  | [], k, v => [(k, v)]
  | (k', v') :: rest, k, v =>
    if k' = k then (k, v) :: rest else (k', v') :: pyDictInsert rest k v

/-- Dict access `r[k]`, raising `KeyError` when the key is absent. -/
def pyIndex (r : Record) (k : String) : Except String Value :=
  match pyLookup k r with
  | some v => Except.ok v
  | none => Except.error ("KeyError: " ++ k)

/-- The abstract query executor (`Neo4jConnector`): both entry points take
the query text and the parameter dict and either return rows or raise. -/
structure DB where
  execute_query : String → List (String × Value) → Except String (List Record)
  execute_single_result : String → List (String × Value) → Except String (Option Record)

/-- A Python `for` loop collecting one result per element, aborting at the
first raised error (as an uncaught exception does). -/
def mapE {α β : Type} (f : α → Except String β) : List α → Except String (List β)
  | [] => Except.ok []
  | x :: xs => do
    let y ← f x
    let ys ← mapE f xs
    pure (y :: ys)

/-- The value must be a string (labels and relationship types are). -/
def asString : Value → Except String String
  | .vstr s => Except.ok s
  | _ => Except.error "TypeError: expected str"

/-- Python `.items()` of a value that must be a dict (`properties(...)` is). -/
def asDict : Value → Except String (List (String × Value))
  | .vmap l => Except.ok l
  | _ => Except.error "AttributeError: items"

/-- A list-of-strings result cell (`labels(...)` is one). -/
def asStringList : Value → Except String (List String)
  | .vlist l => mapE asString l
  | _ => Except.error "TypeError: expected list of str"

/-- Python `r[k] if r else default` on an optional single-row result. -/
def getOrDefault (r : Option Record) (k : String) (dflt : Value) : Except String Value :=
  match r with
  | some rec0 => pyIndex rec0 k
  | none => Except.ok dflt

/-- Python `r['props'] if r and 'props' in r else {}` followed by use as a
dict (`get_relationships`, line 163). -/
def propsOrEmpty (r : Option Record) : Except String (List (String × Value)) :=
  match r with
  | some rec0 =>
    match pyLookup "props" rec0 with
    | some v => asDict v
    | none => Except.ok []
  | none => Except.ok []

/-! ## data_extractor.py -/

def SAMPLE_LIMIT : Nat := 10

def version_query : String :=
  "CALL dbms.components() YIELD name, versions WHERE name = 'Neo4j Kernel' RETURN versions[0] AS version"

def db_name_query : String := "CALL db.info() YIELD name RETURN name"

def size_query : String :=
  "\n        CALL dbms.database.size() YIELD database, totalSize \n        WHERE database = $db_name\n        RETURN totalSize\n        "

/-- The `version`/`db_name`/`db_size` part of the extracted data. -/
structure DatabaseInfo where
  version : Value
  db_name : Value
  db_size : Value

/-- `Neo4jDataExtractor.get_database_info`. -/
def get_database_info (db : DB) : Except String DatabaseInfo := do
  let version_result ← db.execute_single_result version_query []
  let version ← getOrDefault version_result "version" (Value.vstr "Unknown")
  let db_name_result ← db.execute_single_result db_name_query []
  let db_name ← getOrDefault db_name_result "name" (Value.vstr "neo4j")
  let size_result ← db.execute_single_result size_query [("db_name", db_name)]
  let db_size ← getOrDefault size_result "totalSize" (Value.vstr "Unknown")
  pure { version := version, db_name := db_name, db_size := db_size }

def labels_query : String := "CALL db.labels() YIELD label RETURN label ORDER BY label"

/-- `Neo4jDataExtractor.get_node_labels`. -/
def get_node_labels (db : DB) : Except String (List String) := do
  let results ← db.execute_query labels_query []
  mapE (fun result => do asString (← pyIndex result "label")) results

def rel_types_query : String :=
  "CALL db.relationshipTypes() YIELD relationshipType RETURN relationshipType ORDER BY relationshipType"

/-- `Neo4jDataExtractor.get_relationship_types`. -/
def get_relationship_types (db : DB) : Except String (List String) := do
  let results ← db.execute_query rel_types_query []
  mapE (fun result => do asString (← pyIndex result "relationshipType")) results

def node_props_query (label : String) : String :=
  "\n        MATCH (n:`" ++ label ++ "`) \n        RETURN properties(n) AS props\n        LIMIT 1\n        "

structure PropertyDescriptor where
  property_name : String
  data_type : String
  is_primary_key : Bool
deriving DecidableEq

/-- The loop body of `get_node_properties` (lines 91-102): the descriptor
recorded for one `(name, value)` item of the sampled property bag. -/
def descriptor_of (kv : String × Value) : PropertyDescriptor :=
  { property_name := kv.1
    data_type := if pyIsNone kv.2 then "unknown" else pyTypeName kv.2
    is_primary_key := kv.1 == "id" }

/-- `Neo4jDataExtractor.get_node_properties`. -/
def get_node_properties (db : DB) (label : String) : Except String (List PropertyDescriptor) := do
  let result ← db.execute_query (node_props_query label) []
  match result with
  | [] => pure []
  | r0 :: _ =>
    match pyLookup "props" r0 with
    | none => pure []
    | some propsVal => do
      let props ← asDict propsVal
      pure (props.map descriptor_of)

def count_query (label : String) : String :=
  "MATCH (n:`" ++ label ++ "`) RETURN count(n) as count"

structure NodeType where
  label : String
  node_count : Value
  properties : List PropertyDescriptor

/-- One iteration of the `get_nodes` loop body. -/
def nodeEntry (db : DB) (label : String) : Except String NodeType := do
  let count_result ← db.execute_single_result (count_query label) []
  let node_count ← getOrDefault count_result "count" (Value.vint 0)
  let properties ← get_node_properties db label
  pure { label := label, node_count := node_count, properties := properties }

/-- `Neo4jDataExtractor.get_nodes`. -/
def get_nodes (db : DB) : Except String (List NodeType) := do
  let labels ← get_node_labels db
  mapE (nodeEntry db) labels

def rel_endpoints_query (rel_type : String) : String :=
  "\n            MATCH (start)-[r:`" ++ rel_type ++
  "`]->(end)\n            RETURN \n                labels(start) AS start_labels, \n                labels(end) AS end_labels, \n                count(r) AS relationship_count\n            LIMIT 1\n            "

def rel_props_query (rel_type : String) : String :=
  "\n                MATCH ()-[r:`" ++ rel_type ++
  "`]->() \n                RETURN properties(r) AS props\n                LIMIT 1\n                "

def rel_count_query (rel_type : String) : String :=
  "MATCH ()-[r:`" ++ rel_type ++ "`]->() RETURN count(r) as count"

structure RelationshipType where
  type : String
  start_labels : List String
  end_labels : List String
  relationship_count : Value
  properties : List (String × Value)

/-- The body run for a relationship type whose endpoints query returned a
row (`get_relationships`, lines 155-177). -/
def relEntry (db : DB) (rel_type : String) (result : Record) : Except String RelationshipType := do
  let props_result ← db.execute_single_result (rel_props_query rel_type) []
  let properties ← propsOrEmpty props_result
  let count_result ← db.execute_single_result (rel_count_query rel_type) []
  let rel_count ← getOrDefault count_result "count" (Value.vint 0)
  let start_labels ← asStringList (← pyIndex result "start_labels")
  let end_labels ← asStringList (← pyIndex result "end_labels")
  pure { type := rel_type, start_labels := start_labels, end_labels := end_labels,
         relationship_count := rel_count, properties := properties }

/-- The `get_relationships` loop: a type whose endpoints query returns no
row contributes nothing to the list. -/
def relEntries (db : DB) : List String → Except String (List RelationshipType)
  | [] => pure []
  | rel_type :: rest => do
    let result ← db.execute_single_result (rel_endpoints_query rel_type) []
    match result with
    | none => relEntries db rest
    | some r => do
      let entry ← relEntry db rel_type r
      let others ← relEntries db rest
      pure (entry :: others)

/-- `Neo4jDataExtractor.get_relationships`. -/
def get_relationships (db : DB) : Except String (List RelationshipType) := do
  let rel_types ← get_relationship_types db
  relEntries db rel_types

def sample_query (label : String) : String :=
  "\n            MATCH (n:`" ++ label ++ "`) \n            RETURN n \n            LIMIT " ++
  toString SAMPLE_LIMIT ++ "\n            "

/-- The warning `get_samples` prints when sampling a label fails. -/
def sampleWarning (label : String) (e : String) : String :=
  "Warning: Error sampling node " ++ label ++ ": " ++ e

/-- One iteration of the `get_samples` loop: on any error the `except`
branch leaves `samples[label] = []` and prints a warning.  A sampled `n`
cell is a node's property dict (`record.data()` renders nodes so). -/
def sampleOne (db : DB) (label : String) : List Record × List String :=
  match (do
      let results ← db.execute_query (sample_query label) []
      mapE (fun result => do asDict (← pyIndex result "n")) results
    : Except String (List Record)) with
  | .ok l => (l, [])
  | .error e => ([], [sampleWarning label e])

/-- One `get_samples` loop step: store the label's samples (overwriting
any earlier entry for the same label, as dict assignment does) and keep
the warnings printed so far. -/
def get_samples_step (db : DB) (acc : List (String × List Record) × List String)
    (node : NodeType) : List (String × List Record) × List String :=
  let s := sampleOne db node.label
  (pyDictInsert acc.1 node.label s.1, acc.2 ++ s.2)

/-- `Neo4jDataExtractor.get_samples`: never raises; also returns the
warnings it printed. -/
def get_samples (db : DB) (nodes : List NodeType) : List (String × List Record) × List String :=
  nodes.foldl (get_samples_step db) ([], [])

def indexes_query : String :=
  "\n        SHOW INDEXES\n        YIELD name, labelsOrTypes, properties, type, uniqueness, entityType\n        RETURN * ORDER BY name\n        "

def indexWarning (e : String) : String := "Warning: Error getting indexes: " ++ e

/-- `Neo4jDataExtractor.get_indexes`: never raises. -/
def get_indexes (db : DB) : List Record × List String :=
  match db.execute_query indexes_query [] with
  | .ok rows => (rows, [])
  | .error e => ([], [indexWarning e])

def constraints_query : String :=
  "\n        SHOW CONSTRAINTS\n        YIELD name, labelsOrTypes, properties, type, entityType\n        RETURN * ORDER BY name\n        "

def constraintWarning (e : String) : String := "Warning: Error getting constraints: " ++ e

/-- `Neo4jDataExtractor.get_constraints`: never raises. -/
def get_constraints (db : DB) : List Record × List String :=
  match db.execute_query constraints_query [] with
  | .ok rows => (rows, [])
  | .error e => ([], [constraintWarning e])

def procedures_query : String :=
  "\n        CALL dbms.procedures()\n        YIELD name, signature, description\n        WHERE name STARTS WITH 'apoc' OR name STARTS WITH 'algo' OR name STARTS WITH 'gds'\n        RETURN name, signature, description\n        ORDER BY name\n        "

def procedureWarning (e : String) : String := "Warning: Error getting procedures: " ++ e

/-- `Neo4jDataExtractor.get_procedures`: never raises. -/
def get_procedures (db : DB) : List Record × List String :=
  match db.execute_query procedures_query [] with
  | .ok rows => (rows, [])
  | .error e => ([], [procedureWarning e])

/-- The dict `get_all_data` assembles. -/
structure ExtractedData where
  version : Value
  db_name : Value
  db_size : Value
  nodes : List NodeType
  relationships : List RelationshipType
  samples : List (String × List Record)
  indexes : List Record
  constraints : List Record
  procedures : List Record

/-- `Neo4jDataExtractor.get_all_data`, paired with the warnings printed by
the fault-isolated facets. -/
def get_all_data (db : DB) : Except String (ExtractedData × List String) := do
  let info ← get_database_info db
  let nodes ← get_nodes db
  let relationships ← get_relationships db
  let samples := get_samples db nodes
  let indexes := get_indexes db
  let constraints := get_constraints db
  let procedures := get_procedures db
  pure ({ version := info.version, db_name := info.db_name, db_size := info.db_size,
          nodes := nodes, relationships := relationships,
          samples := samples.1, indexes := indexes.1,
          constraints := constraints.1, procedures := procedures.1 },
        samples.2 ++ indexes.2 ++ constraints.2 ++ procedures.2)

/-! ## er_diagram_generator.py -/

/-- The `pk_marker` cell of a property row in `generate_node_html`. -/
def pk_marker (is_pk : Bool) : String :=
  if is_pk then "<TD BGCOLOR=\"#E0FFE0\"><B>PK</B></TD>" else "<TD></TD>"

/-- One property row of the node table in `generate_node_html`. -/
def property_row (prop : PropertyDescriptor) : String :=
  "<TR><TD ALIGN=\"LEFT\">" ++ prop.property_name ++ "</TD><TD ALIGN=\"LEFT\">" ++
  prop.data_type ++ "</TD>" ++ pk_marker prop.is_primary_key ++ "</TR>"

/-- `GraphDiagramGenerator.generate_node_html`. -/
def generate_node_html (node : NodeType) : String :=
  let property_rows := node.properties.map property_row
  let property_rows_str :=
    if property_rows.isEmpty then "<TR><TD COLSPAN=\"3\">No properties</TD></TR>"
    else String.intercalate "\n" property_rows
  "<\n            <TABLE BORDER=\"0\" CELLBORDER=\"1\" CELLSPACING=\"0\" CELLPADDING=\"4\">\n                <TR>\n                    <TD COLSPAN=\"3\" BGCOLOR=\"#4D7A97\"><FONT COLOR=\"white\"><B>" ++
  node.label ++
  "</B> (Node)</FONT></TD>\n                </TR>\n                <TR>\n                    <TD BGCOLOR=\"#EEEEFF\"><B>Property</B></TD>\n                    <TD BGCOLOR=\"#EEEEFF\"><B>Type</B></TD>\n                    <TD BGCOLOR=\"#EEEEFF\"><B>PK</B></TD>\n                </TR>\n                " ++
  property_rows_str ++
  "\n            </TABLE>\n        >"

/-- The fixed first four lines `generate_graph_dot` writes. -/
def dot_header : String :=
  "digraph Neo4jGraph \x7b\n" ++
  "  graph [rankdir=LR, fontname=\"Helvetica\", fontsize=12, pad=\"0.5\", nodesep=\"0.5\", ranksep=\"1.5\"];\n" ++
  "  node [shape=plain, fontname=\"Helvetica\", fontsize=10];\n" ++
  "  edge [fontname=\"Helvetica\", fontsize=9, penwidth=1.0];\n\n"

/-- The node statement `generate_graph_dot` writes for one node. -/
def node_line (node : NodeType) : String :=
  "  \"" ++ node.label ++ "\" [label=" ++ generate_node_html node ++ "];\n"

/-- The `rel_label` built inside the edge loop of `generate_graph_dot`. -/
def rel_label_str (relationship : RelationshipType) : String :=
  let rel_label := relationship.type
  if relationship.properties.isEmpty then rel_label
  else
    rel_label ++ " (" ++
      String.intercalate ", "
        (relationship.properties.map (fun kv => kv.1 ++ ": " ++ pyTypeName kv.2)) ++ ")"

/-- The edge statement `generate_graph_dot` writes for one
`(relationship, start_label, end_label)` combination. -/
def edge_line (relationship : RelationshipType) (start_label end_label : String) : String :=
  "  \"" ++ start_label ++ "\" -> \"" ++ end_label ++ "\" [label=\"" ++
  rel_label_str relationship ++ "\", fontname=\"Helvetica\", " ++
  "fontsize=8, color=\"#5D8AA8\", style=\"solid\"];\n"

/-- The edge statements one relationship entry contributes: the two nested
loops over its `start_labels` and `end_labels`. -/
def edge_lines (relationship : RelationshipType) : List String :=
  relationship.start_labels.flatMap (fun start_label =>
    relationship.end_labels.map (fun end_label =>
      edge_line relationship start_label end_label))

/-- `GraphDiagramGenerator.generate_graph_dot`: the full text written to
the DOT file. -/
def generate_graph_dot (nodes : List NodeType) (relationships : List RelationshipType) : String :=
  dot_header ++
  String.join (nodes.map node_line) ++
  "\n" ++
  String.join (relationships.map (fun relationship => String.join (edge_lines relationship))) ++
  "\x7d\n"

/-! ## report_generator.py -/

/-- The `escape_chars` list of `ReportGenerator.escape_markdown`
(`Char.ofNat 96` is the backquote). -/
def escape_chars : List Char :=
  ['|', '_', '*', Char.ofNat 96, '[', ']', '(', ')', '#', '+', '-', '.', '!']

/-- Python `result.replace(c, rep)` for a single-character pattern `c`:
each occurrence of `c` is replaced by `rep` in one left-to-right pass. -/
def pyReplace1 (c : Char) (rep : List Char) : List Char → List Char
  | [] => []
  | a :: rest => if a = c then rep ++ pyReplace1 c rep rest else a :: pyReplace1 c rep rest

/-- `ReportGenerator.escape_markdown`: `None` becomes the empty string,
anything else is `str()`-converted and run through the replace loop. -/
def escape_markdown (text : Value) : String :=
  if pyIsNone text then ""
  else
    ⟨escape_chars.foldl (fun result char => pyReplace1 char ['\\', char] result) (pyStr text).data⟩

/-- Python `s.add`-style set insert used to model `set.update`: the set is
kept as a duplicate-free list in first-insertion order. -/
def pySetAdd (acc : List String) (k : String) : List String :=
  if k ∈ acc then acc else acc ++ [k]

/-- Python `all_keys.update(sample.keys())`. -/
def pySetUpdate : List String → List String → List String
  | acc, [] => acc
  | acc, k :: ks => pySetUpdate (pySetAdd acc k) ks

/-- The `all_keys` accumulation loop of the sample table. -/
def collectKeys : List Record → List String → List String
  | [], acc => acc
  | sample :: rest, acc => collectKeys rest (pySetUpdate acc (sample.map Prod.fst))

/-- Lexicographic comparison of character lists by code point, the order
Python `sorted` applies to strings. -/
def charListLe : List Char → List Char → Bool
  | [], _ => true
  | _ :: _, [] => false
  | a :: as, b :: bs => if a < b then true else if b < a then false else charListLe as bs

/-- Python string comparison `a <= b`. -/
def strLeb (a b : String) : Bool := charListLe a.data b.data

/-- `all_keys = sorted(list(all_keys))`: the sorted distinct key union of
a label's sample records. -/
def all_keys_of (samples : List Record) : List String :=
  List.insertionSort (fun a b => strLeb a b = true) (collectKeys samples [])

/-- One cell of a sample-table row: `escape_markdown(sample.get(key, ""))`. -/
def sample_cell (sample : Record) (key : String) : String :=
  escape_markdown (pyGet sample key (Value.vstr ""))

/-- One data row of the sample table. -/
def sample_row (all_keys : List String) (sample : Record) : List String :=
  all_keys.map (sample_cell sample)

/-- The sample-data block for one label (`generate_markdown_report`,
lines 79-105). -/
def sample_table (samples : List Record) : String :=
  if samples.isEmpty then "No sample data available.\n"
  else
    let all_keys := all_keys_of samples
    let header_row := String.intercalate " | " (all_keys.map (fun key => escape_markdown (Value.vstr key)))
    let separator := String.intercalate " | " (all_keys.map (fun _ => "----"))
    "| " ++ header_row ++ " |\n" ++
    "| " ++ separator ++ " |\n" ++
    String.join (samples.map (fun sample =>
      "| " ++ String.intercalate " | " (sample_row all_keys sample) ++ " |\n"))

/-- The property table of one node section. -/
def property_table (properties : List PropertyDescriptor) : String :=
  if properties.isEmpty then "No properties defined.\n"
  else
    "| Name | Type | Primary Key |\n" ++
    "| ---- | ---- | ----------- |\n" ++
    String.join (properties.map (fun prop =>
      "| " ++ escape_markdown (Value.vstr prop.property_name) ++ " | " ++
      escape_markdown (Value.vstr prop.data_type) ++ " | " ++
      (if prop.is_primary_key then "Yes" else "No") ++ " |\n"))

/-- One `### <label>` node section of the report. -/
def node_section (data : ExtractedData) (node : NodeType) : String :=
  "### " ++ node.label ++ "\n" ++
  "- Node Count: `" ++ pyStr node.node_count ++ "`\n" ++
  "#### Properties\n\n" ++
  property_table node.properties ++
  "\n#### Sample Data\n\n" ++
  sample_table (pyGet data.samples node.label []) ++
  "\n"

/-- The property table of one relationship section. -/
def rel_property_table (properties : List (String × Value)) : String :=
  if properties.isEmpty then "No properties defined.\n"
  else
    "| Name | Type |\n" ++
    "| ---- | ---- |\n" ++
    String.join (properties.map (fun kv =>
      "| " ++ escape_markdown (Value.vstr kv.1) ++ " | " ++
      escape_markdown (Value.vstr (if pyIsNone kv.2 then "unknown" else pyTypeName kv.2)) ++ " |\n"))

/-- One `### <type>` relationship section of the report. -/
def rel_section (rel : RelationshipType) : String :=
  "### " ++ rel.type ++ "\n" ++
  "- Relationship Count: `" ++ pyStr rel.relationship_count ++ "`\n" ++
  "- Pattern: `(" ++ String.intercalate ", " rel.start_labels ++ ")-[:" ++ rel.type ++
  "]->(" ++ String.intercalate ", " rel.end_labels ++ ")`\n" ++
  "\n#### Properties\n\n" ++
  rel_property_table rel.properties ++
  "\n"

/-- Python `", ".join(v)` over a result cell that holds a list of strings
(`.get(..., [])` defaults make the empty list common); the executor only
hands back lists of strings here. -/
def pyJoinCell (v : Value) : String :=
  match v with
  | .vlist l => String.intercalate ", " (l.map pyStr)
  | _ => ""

/-- The `## Indexes` section (emitted only when indexes exist). -/
def indexes_section (indexes : List Record) : String :=
  "## Indexes\n" ++
  "| Name | Type | Node Label/Relationship Type | Properties | Uniqueness |\n" ++
  "| ---- | ---- | ---------------------------- | ---------- | ---------- |\n" ++
  String.join (indexes.map (fun idx =>
    "| " ++ escape_markdown (pyGet idx "name" (Value.vstr "")) ++ " | " ++
    escape_markdown (pyGet idx "type" (Value.vstr "")) ++ " | " ++
    escape_markdown (Value.vstr (pyJoinCell (pyGet idx "labelsOrTypes" (Value.vlist [])))) ++ " | " ++
    escape_markdown (Value.vstr (pyJoinCell (pyGet idx "properties" (Value.vlist [])))) ++ " | " ++
    escape_markdown (pyGet idx "uniqueness" (Value.vstr "")) ++ " |\n")) ++
  "\n"

/-- The `## Constraints` section (emitted only when constraints exist). -/
def constraints_section (constraints : List Record) : String :=
  "## Constraints\n" ++
  "| Name | Type | Node Label/Relationship Type | Properties |\n" ++
  "| ---- | ---- | ---------------------------- | ---------- |\n" ++
  String.join (constraints.map (fun constraint =>
    "| " ++ escape_markdown (pyGet constraint "name" (Value.vstr "")) ++ " | " ++
    escape_markdown (pyGet constraint "type" (Value.vstr "")) ++ " | " ++
    escape_markdown (Value.vstr (pyJoinCell (pyGet constraint "labelsOrTypes" (Value.vlist [])))) ++ " | " ++
    escape_markdown (Value.vstr (pyJoinCell (pyGet constraint "properties" (Value.vlist [])))) ++ " |\n")) ++
  "\n"

/-- The `## Available Procedures` section (emitted only when present). -/
def procedures_section (procedures : List Record) : String :=
  "## Available Procedures\n" ++
  "| Name | Signature | Description |\n" ++
  "| ---- | --------- | ----------- |\n" ++
  String.join (procedures.map (fun proc =>
    "| " ++ escape_markdown (pyGet proc "name" (Value.vstr "")) ++ " | " ++
    escape_markdown (pyGet proc "signature" (Value.vstr "")) ++ " | " ++
    escape_markdown (pyGet proc "description" (Value.vstr "")) ++ " |\n")) ++
  "\n"

/-- `ReportGenerator.generate_markdown_report`: the full text written to
the Markdown file; `now` is the formatted `datetime.now()` reading. -/
def generate_markdown_report (now : String) (data : ExtractedData)
    (dot_path png_path : String) : String :=
  "# Neo4j Audit Report: `" ++ pyStr data.db_name ++ "`\n" ++
  "*Generated: " ++ now ++ "*\n\n" ++
  "## General Info\n" ++
  "- Neo4j version: **" ++ pyStr data.version ++ "**\n" ++
  "- DB Size: **" ++ pyStr data.db_size ++ "**\n" ++
  "- Node Labels: **" ++ toString data.nodes.length ++ "**\n" ++
  "- Relationship Types: **" ++ toString data.relationships.length ++ "**\n\n" ++
  "## Node Labels\n" ++
  String.join (data.nodes.map (node_section data)) ++
  "## Relationship Types\n" ++
  String.join (data.relationships.map rel_section) ++
  (if data.indexes.isEmpty then "" else indexes_section data.indexes) ++
  (if data.constraints.isEmpty then "" else constraints_section data.constraints) ++
  (if data.procedures.isEmpty then "" else procedures_section data.procedures) ++
  "## Graph Diagram\n" ++
  "- DOT: `" ++ dot_path ++ "`  \n" ++
  "- PNG: `" ++ png_path ++ "`  \n\n"

/-! ## neo4j_xray.py (rendering part of `main`) -/

/-- Run-dependent ambient data available to one `main` run: the only such
input the renderers consume is the formatted clock reading the report
inserts into its header. -/
structure Run where
  now : String

/-- The two text artifacts `main` renders from one extracted model: the
DOT diagram content and the Markdown report content, in the order `main`
produces them. -/
def pipeline_outputs (run : Run) (data : ExtractedData)
    (dot_path png_path : String) : String × String :=
  (generate_graph_dot data.nodes data.relationships,
   generate_markdown_report run.now data dot_path png_path)

/-! ## Spec-side comparison definitions and concrete instances -/

/-- The claim's edge index set for one relationship entry: the cartesian
product of its start and end label lists. -/
def labelPairs (r : RelationshipType) : List (String × String) :=
  r.start_labels.flatMap (fun s => r.end_labels.map (fun e => (s, e)))

/-- Character-by-character escaping, the order-independent form the spec
describes: every character in `done` is prefixed with one backslash, all
others pass through unchanged. -/
def stageC (done : List Char) : List Char → List Char
  | [] => []
  | a :: rest => (if a ∈ done then ['\\', a] else [a]) ++ stageC done rest

/-- The spec's escaping rule, written independently of the replace loop:
each of the thirteen syntax-significant characters individually prefixed
with the escape marker, character by character. -/
def escape_spec_charwise (s : String) : String := ⟨stageC escape_chars s.data⟩

/-- Modelled from the spec: the generated file "must remain well-formed
DOT" with the intended node and edge set, but `src/` contains no DOT
consumer, so the consumer's lexical rule for a double-quoted identifier
(scan to the closing double quote; the generator emits no escape
sequences in front of one) is modelled here to state what a DOT reader
recovers from the emitted text. -/
def dotQuoteScan : List Char → List Char × List Char
  | [] => ([], [])
  | c :: rest =>
    if c = '"' then ([], rest)
    else
      let p := dotQuoteScan rest
      (c :: p.1, p.2)

/-- The identifier a DOT reader recovers from text that starts with a
double-quoted string. -/
def dotQuotedToken (s : List Char) : Option String :=
  match s with
  | [] => none
  | c :: rest => if c = '"' then some ⟨(dotQuoteScan rest).1⟩ else none

/-- A node whose label contains a double quote: the failing input for the
diagram-escaping claim. -/
def injectionNode : NodeType :=
  { label := "A\"B", node_count := Value.vint 1, properties := [] }

/-- The claim's worked example: `start_labels = [A, B]`, `end_labels = [C]`. -/
def exampleRel : RelationshipType :=
  { type := "KNOWS", start_labels := ["A", "B"], end_labels := ["C"],
    relationship_count := Value.vint 2, properties := [] }

/-- A concrete executor used by the witnesses: two labels (`P` empty, `Q`
populated), one populated relationship type (`KNOWS`) and one with no
matching edges (`EMPTY`); sampling label `P` raises, as does the index
query; every other optional facet succeeds. -/
def dbW : DB where
  execute_query := fun q _ =>
    if q = labels_query then
      Except.ok [[("label", Value.vstr "P")], [("label", Value.vstr "Q")]]
    else if q = rel_types_query then
      Except.ok [[("relationshipType", Value.vstr "EMPTY")],
                 [("relationshipType", Value.vstr "KNOWS")]]
    else if q = node_props_query "P" then Except.ok []
    else if q = node_props_query "Q" then
      Except.ok [[("props", Value.vmap
        [("id", Value.vint 1), ("name", Value.vstr "bob"), ("x", Value.vnull)])]]
    else if q = sample_query "P" then Except.error "boom"
    else if q = sample_query "Q" then
      Except.ok [[("n", Value.vmap [("id", Value.vint 1)])]]
    else if q = indexes_query then Except.error "unsupported"
    else Except.ok []
  execute_single_result := fun q _ =>
    if q = version_query then Except.ok (some [("version", Value.vstr "5.14.0")])
    else if q = db_name_query then Except.ok (some [("name", Value.vstr "neo4j")])
    else if q = count_query "P" then Except.ok (some [("count", Value.vint 0)])
    else if q = count_query "Q" then Except.ok (some [("count", Value.vint 2)])
    else if q = rel_endpoints_query "KNOWS" then
      Except.ok (some [("start_labels", Value.vlist [Value.vstr "Q"]),
                       ("end_labels", Value.vlist [Value.vstr "Q"]),
                       ("relationship_count", Value.vint 1)])
    else if q = rel_props_query "KNOWS" then Except.ok (some [("props", Value.vmap [])])
    else if q = rel_count_query "KNOWS" then Except.ok (some [("count", Value.vint 1)])
    else Except.ok none

/-- The node list `get_nodes` extracts from `dbW`. -/
def nsW : List NodeType :=
  [{ label := "P", node_count := Value.vint 0, properties := [] },
   { label := "Q", node_count := Value.vint 2, properties :=
      [{ property_name := "id", data_type := "int", is_primary_key := true },
       { property_name := "name", data_type := "str", is_primary_key := false },
       { property_name := "x", data_type := "unknown", is_primary_key := false }] }]

/-- The relationship list `get_relationships` extracts from `dbW`. -/
def relsW : List RelationshipType :=
  [{ type := "KNOWS", start_labels := ["Q"], end_labels := ["Q"],
     relationship_count := Value.vint 1, properties := [] }]

/-- The `version`/`db_name`/`db_size` triple `get_database_info` extracts
from `dbW` (the size query returns no row, so the sentinel is used). -/
def infoW : DatabaseInfo :=
  { version := Value.vstr "5.14.0", db_name := Value.vstr "neo4j",
    db_size := Value.vstr "Unknown" }

/-- The full model `get_all_data` extracts from `dbW`. -/
def dataW : ExtractedData :=
  { version := infoW.version, db_name := infoW.db_name, db_size := infoW.db_size,
    nodes := nsW, relationships := relsW,
    samples := [("P", []), ("Q", [[("id", Value.vint 1)]])],
    indexes := [], constraints := [], procedures := [] }

/-! ## Helper lemmas -/

theorem except_bind_ok {α β : Type} (x : α) (f : α → Except String β) :
    (Except.ok x >>= f) = f x := rfl

theorem except_bind_error {α β : Type} (e : String) (f : α → Except String β) :
    ((Except.error e : Except String α) >>= f) = Except.error e := rfl

theorem except_ok_of_bind {α β : Type} {x : Except String α} {f : α → Except String β} {b : β}
    (h : (x >>= f) = Except.ok b) : ∃ a, x = Except.ok a ∧ f a = Except.ok b := by
  cases x with
  | error e => rw [except_bind_error] at h; exact (Except.noConfusion h)
  | ok a => exact ⟨a, rfl, h⟩

theorem mapE_ok_mem {α β : Type} (f : α → Except String β) :
    ∀ (xs : List α) (ys : List β), mapE f xs = Except.ok ys →
      ∀ x ∈ xs, ∃ y, f x = Except.ok y ∧ y ∈ ys := by
  intro xs
  induction xs with
  | nil => intro ys _ x hx; exact absurd hx (List.not_mem_nil x)
  | cons a as ih =>
    intro ys h x hx
    rw [show mapE f (a :: as) =
          (f a >>= fun y => mapE f as >>= fun ys => pure (y :: ys)) from rfl] at h
    obtain ⟨y0, hfa, h⟩ := except_ok_of_bind h
    obtain ⟨ys', hmas, h⟩ := except_ok_of_bind h
    have hys : ys = y0 :: ys' := by
      rw [show (pure (y0 :: ys') : Except String (List β)) = Except.ok (y0 :: ys') from rfl] at h
      exact (Except.ok.inj h).symm
    rcases List.mem_cons.mp hx with h1 | h2
    · exact ⟨y0, h1 ▸ hfa, hys ▸ List.mem_cons_self y0 ys'⟩
    · obtain ⟨y, hy, hmem⟩ := ih ys' hmas x h2
      exact ⟨y, hy, hys ▸ List.mem_cons_of_mem y0 hmem⟩

theorem pyReplace1_append (c : Char) (rep : List Char) (l₁ l₂ : List Char) :
    pyReplace1 c rep (l₁ ++ l₂) = pyReplace1 c rep l₁ ++ pyReplace1 c rep l₂ := by
  induction l₁ with
  | nil => rfl
  | cons a rest ih =>
    by_cases h : a = c <;> simp [pyReplace1, h, ih]

theorem pyReplace1_stageC (c : Char) (done : List Char) (hc : c ∉ done) (hb : c ≠ '\\') :
    ∀ s : List Char, pyReplace1 c ['\\', c] (stageC done s) = stageC (c :: done) s := by
  intro s
  induction s with
  | nil => rfl
  | cons a rest ih =>
    show pyReplace1 c ['\\', c] ((if a ∈ done then ['\\', a] else [a]) ++ stageC done rest) =
      (if a ∈ c :: done then ['\\', a] else [a]) ++ stageC (c :: done) rest
    rw [pyReplace1_append, ih]
    congr 1
    by_cases ha : a ∈ done
    · have hac : ¬ a = c := fun h => hc (h ▸ ha)
      have hbc : ¬ '\\' = c := fun h => hb h.symm
      simp [pyReplace1, ha, hac, hbc, List.mem_cons]
    · by_cases hac : a = c
      · simp [pyReplace1, ha, hac, hc, List.mem_cons]
      · simp [pyReplace1, ha, hac, List.mem_cons]

theorem foldl_replace_stageC :
    ∀ (cs done : List Char) (s : List Char),
      (∀ c ∈ cs, c ∉ done ∧ c ≠ '\\') → cs.Nodup →
      cs.foldl (fun result char => pyReplace1 char ['\\', char] result) (stageC done s) =
        stageC (cs.reverse ++ done) s := by
  intro cs
  induction cs with
  | nil => intro done s _ _; simp
  | cons c rest ih =>
    intro done s h hnd
    have hc := h c (List.mem_cons_self c rest)
    have hrest : ∀ c' ∈ rest, c' ∉ (c :: done) ∧ c' ≠ '\\' := by
      intro c' hc'
      refine ⟨?_, (h c' (List.mem_cons_of_mem c hc')).2⟩
      intro hmem
      rcases List.mem_cons.mp hmem with h1 | h2
      · exact (List.nodup_cons.mp hnd).1 (h1 ▸ hc')
      · exact (h c' (List.mem_cons_of_mem c hc')).1 h2
    rw [List.foldl_cons, pyReplace1_stageC c done hc.1 hc.2 s,
      ih (c :: done) s hrest (List.Nodup.of_cons hnd)]
    simp [List.reverse_cons, List.append_assoc]

theorem stageC_nil : ∀ s : List Char, stageC [] s = s := by
  intro s
  induction s with
  | nil => rfl
  | cons a rest ih => simp [stageC, ih]

theorem stageC_congr (l₁ l₂ : List Char) (h : ∀ a, a ∈ l₁ ↔ a ∈ l₂) :
    ∀ s, stageC l₁ s = stageC l₂ s := by
  intro s
  induction s with
  | nil => rfl
  | cons a rest ih =>
    show (if a ∈ l₁ then ['\\', a] else [a]) ++ stageC l₁ rest =
      (if a ∈ l₂ then ['\\', a] else [a]) ++ stageC l₂ rest
    rw [ih]
    congr 1
    by_cases ha : a ∈ l₁
    · rw [if_pos ha, if_pos ((h a).mp ha)]
    · rw [if_neg ha, if_neg (fun hx => ha ((h a).mpr hx))]

/-! ## Claim theorems -/

/-- C4: applied once, the report escaping function maps a null value to
the empty string and any other value to its character-by-character
escaping: each occurrence of each of the thirteen characters
`| _ * backquote [ ] ( ) # + - . !` is prefixed with a single backslash,
order-independently, one occurrence never re-escaping another; `"a|b"`
becomes `"a\|b"`, and a backslash already present as literal data passes
through unchanged (it is not doubled). -/
theorem escape_markdown_spec :
    (∀ v : Value, pyIsNone v = false →
        escape_markdown v = escape_spec_charwise (pyStr v))
  ∧ escape_markdown Value.vnull = ""
  ∧ escape_markdown (Value.vstr "a|b") = "a\\|b"
  ∧ escape_markdown (Value.vstr "a\\b") = "a\\b" := by
  refine ⟨?_, rfl, rfl, rfl⟩
  intro v hv
  show (if pyIsNone v = true then "" else
    ⟨escape_chars.foldl (fun result char => pyReplace1 char ['\\', char] result)
      (pyStr v).data⟩) = escape_spec_charwise (pyStr v)
  rw [hv, if_neg (by simp)]
  have h0 : (pyStr v).data = stageC [] (pyStr v).data := (stageC_nil _).symm
  conv_lhs => rw [h0]
  rw [foldl_replace_stageC escape_chars [] (pyStr v).data
    (by decide) (by decide)]
  show String.mk (stageC (escape_chars.reverse ++ []) (pyStr v).data) = _
  rw [stageC_congr (escape_chars.reverse ++ []) escape_chars (by intro a; simp)]
  rfl

/-- Closed instance of the escaping theorem at a non-null value,
discharging its hypothesis. -/
theorem escape_markdown_spec_witness :
    pyIsNone (Value.vstr "x|y.z") = false ∧
    escape_markdown (Value.vstr "x|y.z") = escape_spec_charwise (pyStr (Value.vstr "x|y.z")) ∧
    escape_markdown (Value.vstr "x|y.z") = "x\\|y\\.z" :=
  ⟨rfl, escape_markdown_spec.1 (Value.vstr "x|y.z") rfl, rfl⟩

theorem length_flatMap_map_const {α β γ : Type} (ss : List α) (es : List β) (f : α → β → γ) :
    (ss.flatMap (fun s => es.map (f s))).length = ss.length * es.length := by
  induction ss with
  | nil => simp
  | cons a as ih =>
    simp [List.flatMap_cons, ih, Nat.succ_mul, Nat.add_comm]

/-- C1: one relationship entry contributes exactly the cartesian product
of its start and end label lists as directed edges — one edge statement
per `(start, end)` pair, `|start_labels| * |end_labels|` in total — each
labeled with the relationship's type name, suffixed with the comma-joined
`name: type` list exactly when the entry carries properties; in
particular `start_labels = [A, B]`, `end_labels = [C]` yields exactly the
two edges `A -> C` and `B -> C`, labeled `KNOWS`. -/
theorem edge_fanout_cartesian :
    (∀ r : RelationshipType,
        (edge_lines r).length = r.start_labels.length * r.end_labels.length)
  ∧ (∀ r : RelationshipType,
        edge_lines r = (labelPairs r).map (fun p => edge_line r p.1 p.2))
  ∧ (∀ r : RelationshipType, r.properties.isEmpty = true → rel_label_str r = r.type)
  ∧ (∀ r : RelationshipType, r.properties.isEmpty = false →
        rel_label_str r = r.type ++ " (" ++
          String.intercalate ", "
            (r.properties.map (fun kv => kv.1 ++ ": " ++ pyTypeName kv.2)) ++ ")")
  ∧ edge_lines exampleRel = [edge_line exampleRel "A" "C", edge_line exampleRel "B" "C"]
  ∧ rel_label_str exampleRel = "KNOWS" := by
  refine ⟨?_, ?_, ?_, ?_, rfl, rfl⟩
  · intro r
    exact length_flatMap_map_const _ _ _
  · intro r
    simp only [edge_lines, labelPairs, List.map_flatMap, List.map_map]
    rfl
  · intro r h
    simp [rel_label_str, h]
  · intro r h
    simp [rel_label_str, h]

/-- Closed instance of the edge-fanout theorem: the worked example has
exactly two edges, and a relationship with one property gets the
`name: type` suffix. -/
theorem edge_fanout_cartesian_witness :
    (edge_lines exampleRel).length = 2 ∧
    rel_label_str { exampleRel with properties := [("since", Value.vint 5)] } =
      "KNOWS (since: int)" := by
  constructor
  · rw [edge_fanout_cartesian.1 exampleRel]
    rfl
  · rw [edge_fanout_cartesian.2.2.2.1 { exampleRel with properties := [("since", Value.vint 5)] } rfl]
    rfl

/-- C9: the diagram synthesizer is deterministic — the DOT text the
pipeline produces depends only on the `(nodes, relationships)` part of
the model, and in particular not on the run clock, the only
run-dependent input the renderers receive (the report consumes it, the
diagram does not). -/
theorem diagram_output_deterministic :
    ∀ (run₁ run₂ : Run) (d₁ d₂ : ExtractedData) (dot_path png_path : String),
      d₁.nodes = d₂.nodes → d₁.relationships = d₂.relationships →
      (pipeline_outputs run₁ d₁ dot_path png_path).1 =
        (pipeline_outputs run₂ d₂ dot_path png_path).1 := by
  intro run₁ run₂ d₁ d₂ dot_path png_path hn hr
  show generate_graph_dot d₁.nodes d₁.relationships =
    generate_graph_dot d₂.nodes d₂.relationships
  rw [hn, hr]

/-- Closed instance of the determinism theorem: two runs at different
clock readings produce the same DOT text for the witness model. -/
theorem diagram_output_deterministic_witness :
    (pipeline_outputs { now := "2024-01-01 00:00:00" } dataW
        "graph_diagram.dot" "graph_diagram.png").1 =
      (pipeline_outputs { now := "2025-06-30 12:34:56" } dataW
        "graph_diagram.dot" "graph_diagram.png").1 :=
  diagram_output_deterministic _ _ dataW dataW _ _ rfl rfl

set_option maxRecDepth 8192 in
/-- C7 (code bug): the generator writes the raw label between double
quotes without any escaping, so a label containing a double quote
corrupts the emitted statement: a DOT reader lexing the node statement
written for the label `A"B` recovers the identifier `A`, not the
intended label, and the corrupted statement is exactly what the full
generated file contains for that node. -/
theorem diagram_label_injection :
    dotQuotedToken ((node_line injectionNode).data.drop 2) = some "A"
  ∧ "A" ≠ injectionNode.label
  ∧ generate_graph_dot [injectionNode] [] =
      dot_header ++ node_line injectionNode ++ "\n" ++ "\x7d\n" := by
  refine ⟨rfl, ?_, rfl⟩
  intro h
  exact absurd (congrArg String.length h) (by decide)

/-- C6: once the extractor has the sampled entity's property bag, it
records exactly one descriptor per key, inferring type `"unknown"`
precisely when the sampled value is null and the value's runtime type
name otherwise, and marking `is_primary_key` exactly when the property
name is `"id"`, regardless of the value. -/
theorem property_inference_rule :
    ∀ (db : DB) (label : String) (r0 : Record) (rest : List Record)
      (bag : List (String × Value)),
      db.execute_query (node_props_query label) [] = Except.ok (r0 :: rest) →
      pyLookup "props" r0 = some (Value.vmap bag) →
      get_node_properties db label = Except.ok (bag.map descriptor_of)
    ∧ ∀ kv : String × Value,
        ((descriptor_of kv).is_primary_key = true ↔ kv.1 = "id")
      ∧ (pyIsNone kv.2 = true → (descriptor_of kv).data_type = "unknown")
      ∧ (pyIsNone kv.2 = false → (descriptor_of kv).data_type = pyTypeName kv.2) := by
  intro db label r0 rest bag hq hp
  constructor
  · unfold get_node_properties
    rw [hq, except_bind_ok]
    show (match pyLookup "props" r0 with
          | none => pure []
          | some propsVal => asDict propsVal >>= fun props => pure (props.map descriptor_of)) =
      Except.ok (bag.map descriptor_of)
    rw [hp]
    rfl
  · intro kv
    refine ⟨?_, ?_, ?_⟩
    · simp [descriptor_of]
    · intro h
      simp [descriptor_of, h]
    · intro h
      simp [descriptor_of, h]

set_option maxRecDepth 8192 in
/-- Closed instance of the inference theorem at the witness executor's
label `Q`, whose sampled bag holds an int-valued `id`, a string-valued
`name` and a null `x`. -/
theorem property_inference_rule_witness :
    get_node_properties dbW "Q" =
      Except.ok ([("id", Value.vint 1), ("name", Value.vstr "bob"),
        ("x", Value.vnull)].map descriptor_of)
  ∧ (descriptor_of ("id", Value.vint 1)).is_primary_key = true
  ∧ (descriptor_of ("x", Value.vnull)).data_type = "unknown"
  ∧ (descriptor_of ("name", Value.vstr "bob")).data_type = pyTypeName (Value.vstr "bob") := by
  have h := property_inference_rule dbW "Q"
    [("props", Value.vmap [("id", Value.vint 1), ("name", Value.vstr "bob"), ("x", Value.vnull)])]
    [] [("id", Value.vint 1), ("name", Value.vstr "bob"), ("x", Value.vnull)] rfl rfl
  exact ⟨h.1, (h.2 ("id", Value.vint 1)).1.mpr rfl,
    (h.2 ("x", Value.vnull)).2.1 rfl, (h.2 ("name", Value.vstr "bob")).2.2 rfl⟩

/-- C8 (amended): every inferred property type the extractor records is
drawn from the seven-valued enumeration of Python runtime type names
`str | int | float | bool | list | dict | unknown`, decided from the one
sampled value. -/
theorem inferred_type_enumeration :
    ∀ (db : DB) (label : String) (ps : List PropertyDescriptor),
      get_node_properties db label = Except.ok ps →
      ∀ p ∈ ps,
        p.data_type ∈ (["str", "int", "float", "bool", "list", "dict", "unknown"] : List String) := by
  intro db label ps h p hp
  unfold get_node_properties at h
  obtain ⟨rows, hq, h⟩ := except_ok_of_bind h
  match rows with
  | [] =>
    have : ps = [] := (Except.ok.inj h).symm
    subst this
    exact absurd hp (List.not_mem_nil p)
  | r0 :: rest =>
    revert h
    show (match pyLookup "props" r0 with
          | none => pure []
          | some propsVal => asDict propsVal >>= fun props => pure (props.map descriptor_of)) =
        Except.ok ps → _
    intro h
    match hl : pyLookup "props" r0 with
    | none =>
      rw [hl] at h
      have : ps = [] := (Except.ok.inj h).symm
      subst this
      exact absurd hp (List.not_mem_nil p)
    | some v =>
      rw [hl] at h
      obtain ⟨props, hd, h⟩ := except_ok_of_bind h
      have : ps = props.map descriptor_of := (Except.ok.inj h).symm
      subst this
      obtain ⟨kv, hkv, hpd⟩ := List.mem_map.mp hp
      obtain ⟨k, w⟩ := kv
      subst hpd
      cases w <;> simp [descriptor_of, pyIsNone, pyTypeName]

set_option maxRecDepth 8192 in
/-- Closed instance of the amended enumeration theorem at the witness
executor's label `Q`. -/
theorem inferred_type_enumeration_witness :
    ({ property_name := "name", data_type := "str", is_primary_key := false } :
        PropertyDescriptor).data_type ∈
      (["str", "int", "float", "bool", "list", "dict", "unknown"] : List String) :=
  inferred_type_enumeration dbW "Q"
    [{ property_name := "id", data_type := "int", is_primary_key := true },
     { property_name := "name", data_type := "str", is_primary_key := false },
     { property_name := "x", data_type := "unknown", is_primary_key := false }] rfl
    _ (by simp)

set_option maxRecDepth 8192 in
/-- C8 counterexample: for a string-valued sampled property the recorded
inferred type is the Python runtime name `"str"`, which is not one of the
spec's enumeration tags `string|integer|float|boolean|list|map|unknown`
(similarly `int` vs `integer`, `bool` vs `boolean`, `dict` vs `map`). -/
theorem inferred_type_enumeration_cx :
    get_node_properties dbW "Q" = Except.ok
      [{ property_name := "id", data_type := "int", is_primary_key := true },
       { property_name := "name", data_type := "str", is_primary_key := false },
       { property_name := "x", data_type := "unknown", is_primary_key := false }]
  ∧ (["string", "integer", "float", "boolean", "list", "map", "unknown"].contains "str") = false
  ∧ (["string", "integer", "float", "boolean", "list", "map", "unknown"].contains "int") = false := by
  refine ⟨rfl, by decide, by decide⟩

theorem relEntry_type (db : DB) (rel_type : String) (result : Record)
    (entry : RelationshipType) (h : relEntry db rel_type result = Except.ok entry) :
    entry.type = rel_type := by
  unfold relEntry at h
  obtain ⟨props_result, h1, h⟩ := except_ok_of_bind h
  obtain ⟨properties, h2, h⟩ := except_ok_of_bind h
  obtain ⟨count_result, h3, h⟩ := except_ok_of_bind h
  obtain ⟨rel_count, h4, h⟩ := except_ok_of_bind h
  obtain ⟨sl_v, h5, h⟩ := except_ok_of_bind h
  obtain ⟨start_labels, h6, h⟩ := except_ok_of_bind h
  obtain ⟨el_v, h7, h⟩ := except_ok_of_bind h
  obtain ⟨end_labels, h8, h⟩ := except_ok_of_bind h
  have : entry = { type := rel_type, start_labels := start_labels,
                   end_labels := end_labels, relationship_count := rel_count,
                   properties := properties } := Except.ok.inj h.symm
  rw [this]

theorem relEntries_mem (db : DB) :
    ∀ (ts : List String) (rels : List RelationshipType),
      relEntries db ts = Except.ok rels →
      ∀ rel ∈ rels, rel.type ∈ ts ∧
        ∃ r0 : Record,
          db.execute_single_result (rel_endpoints_query rel.type) [] = Except.ok (some r0) := by
  intro ts
  induction ts with
  | nil =>
    intro rels h rel hrel
    have : rels = [] := (Except.ok.inj h).symm
    subst this
    exact absurd hrel (List.not_mem_nil rel)
  | cons t rest ih =>
    intro rels h rel hrel
    unfold relEntries at h
    obtain ⟨res, h1, h⟩ := except_ok_of_bind h
    match res with
    | none =>
      obtain ⟨ht, hr⟩ := ih rels h rel hrel
      exact ⟨List.mem_cons_of_mem t ht, hr⟩
    | some r0 =>
      obtain ⟨entry, he, h⟩ := except_ok_of_bind h
      obtain ⟨others, ho, h⟩ := except_ok_of_bind h
      have hcons : rels = entry :: others := (Except.ok.inj h).symm
      subst hcons
      rcases List.mem_cons.mp hrel with h1' | h2'
      · subst h1'
        have htype := relEntry_type db t r0 rel he
        rw [htype]
        exact ⟨List.mem_cons_self t rest, r0, h1⟩
      · obtain ⟨ht, hr⟩ := ih others ho rel h2'
        exact ⟨List.mem_cons_of_mem t ht, hr⟩

/-- C3: extraction treats empty labels and empty relationship types
asymmetrically — a label whose count query reports zero matching
entities and whose property query returns no row still appears in the
node list, with `node_count` 0 and an empty property list, while a
relationship type whose endpoints query returns no row is omitted from
the relationship list entirely. -/
theorem empty_label_vs_empty_reltype :
    ∀ (db : DB) (L T : String) (labels : List String) (ns : List NodeType)
      (ts : List String) (rels : List RelationshipType),
      (get_node_labels db = Except.ok labels → L ∈ labels →
        db.execute_single_result (count_query L) [] =
          Except.ok (some [("count", Value.vint 0)]) →
        db.execute_query (node_props_query L) [] = Except.ok [] →
        get_nodes db = Except.ok ns →
        ({ label := L, node_count := Value.vint 0, properties := [] } : NodeType) ∈ ns)
    ∧ (get_relationship_types db = Except.ok ts → T ∈ ts →
        db.execute_single_result (rel_endpoints_query T) [] = Except.ok none →
        get_relationships db = Except.ok rels →
        ∀ rel ∈ rels, rel.type ≠ T) := by
  intro db L T labels ns ts rels
  constructor
  · intro hlab hmem hcount hprops hnodes
    have hgp : get_node_properties db L = Except.ok [] := by
      unfold get_node_properties
      rw [hprops, except_bind_ok]
      rfl
    have hentry : nodeEntry db L =
        Except.ok { label := L, node_count := Value.vint 0, properties := [] } := by
      unfold nodeEntry
      rw [hcount]
      simp only [except_bind_ok]
      rw [show getOrDefault (some [("count", Value.vint 0)]) "count" (Value.vint 0) =
          Except.ok (Value.vint 0) from rfl]
      simp only [except_bind_ok]
      rw [hgp]
      simp only [except_bind_ok]
      rfl
    unfold get_nodes at hnodes
    rw [hlab, except_bind_ok] at hnodes
    obtain ⟨y, hy, hymem⟩ := mapE_ok_mem (nodeEntry db) labels ns hnodes L hmem
    have : ({ label := L, node_count := Value.vint 0, properties := [] } : NodeType) = y :=
      Except.ok.inj (hentry.symm.trans hy)
    rw [this]
    exact hymem
  · intro htypes hmem hnone hrels rel hrel heq
    unfold get_relationships at hrels
    rw [htypes, except_bind_ok] at hrels
    obtain ⟨ht, r0, hr⟩ := relEntries_mem db ts rels hrels rel hrel
    rw [heq, hnone] at hr
    exact Option.noConfusion (Except.ok.inj hr)

set_option maxRecDepth 8192 in
/-- Closed instance of the asymmetry theorem at the witness executor:
the empty label `P` appears in the node list with count 0 and no
properties, while no extracted relationship carries the matching-edge-free
type `EMPTY`. -/
theorem empty_label_vs_empty_reltype_witness :
    ({ label := "P", node_count := Value.vint 0, properties := [] } : NodeType) ∈ nsW
  ∧ (relsW.all (fun rel => rel.type != "EMPTY")) = true := by
  constructor
  · exact (empty_label_vs_empty_reltype dbW "P" "EMPTY" ["P", "Q"] nsW
      ["EMPTY", "KNOWS"] relsW).1 rfl (by simp) rfl rfl rfl
  · have h := (empty_label_vs_empty_reltype dbW "P" "EMPTY" ["P", "Q"] nsW
      ["EMPTY", "KNOWS"] relsW).2 rfl (by simp) rfl rfl
    simp only [List.all_eq_true]
    intro rel hrel
    simpa using h rel hrel

theorem sampleOne_error (db : DB) (L e : String)
    (h : db.execute_query (sample_query L) [] = Except.error e) :
    sampleOne db L = ([], [sampleWarning L e]) := by
  unfold sampleOne
  rw [h, except_bind_error]

theorem pyLookup_pyDictInsert {α : Type} :
    ∀ (d : List (String × α)) (k k' : String) (v : α),
      pyLookup k (pyDictInsert d k' v) = if k' = k then some v else pyLookup k d := by
  intro d
  induction d with
  | nil =>
    intro k k' v
    simp [pyDictInsert, pyLookup]
  | cons kv rest ih =>
    intro k k' v
    obtain ⟨k0, v0⟩ := kv
    by_cases h0 : k0 = k'
    · subst h0
      by_cases hk : k0 = k
      · subst hk
        simp [pyDictInsert, pyLookup]
      · simp [pyDictInsert, pyLookup, hk]
    · by_cases hk : k0 = k
      · subst hk
        have hk' : ¬ k' = k0 := fun h => h0 h.symm
        simp [pyDictInsert, h0, pyLookup, hk']
      · simp [pyDictInsert, h0, pyLookup, hk, ih]

theorem get_samples_lookup (db : DB) :
    ∀ (nodes : List NodeType) (acc : List (String × List Record) × List String) (L : String),
      pyLookup L (nodes.foldl (get_samples_step db) acc).1 =
        (if L ∈ nodes.map NodeType.label then some (sampleOne db L).1
         else pyLookup L acc.1) := by
  intro nodes
  induction nodes with
  | nil =>
    intro acc L
    simp
  | cons n rest ih =>
    intro acc L
    rw [List.foldl_cons, ih]
    by_cases hr : L ∈ rest.map NodeType.label
    · rw [if_pos hr, if_pos]
      simp [hr]
    · rw [if_neg hr]
      show pyLookup L (pyDictInsert acc.1 n.label (sampleOne db n.label).1) =
        if L ∈ (n :: rest).map NodeType.label then some (sampleOne db L).1 else pyLookup L acc.1
      rw [pyLookup_pyDictInsert]
      by_cases hn : n.label = L
      · rw [if_pos hn, if_pos (by simp [List.mem_cons, hn.symm]), hn]
      · rw [if_neg hn, if_neg]
        simp only [List.map_cons, List.mem_cons]
        rintro (h1 | h2)
        · exact hn h1.symm
        · exact hr h2

theorem get_samples_snd (db : DB) :
    ∀ (nodes : List NodeType) (acc : List (String × List Record) × List String),
      (nodes.foldl (get_samples_step db) acc).2 =
        acc.2 ++ nodes.flatMap (fun n => (sampleOne db n.label).2) := by
  intro nodes
  induction nodes with
  | nil =>
    intro acc
    simp
  | cons n rest ih =>
    intro acc
    rw [List.foldl_cons, ih]
    simp [get_samples_step, List.flatMap_cons, List.append_assoc]

/-- C10: the sampling step returns a map whose key set is exactly the set
of label values of the input nodes — a label whose sampling query raises
is still present and maps to the empty list, and no key outside the
input labels ever appears. -/
theorem samples_key_set_exact :
    ∀ (db : DB) (nodes : List NodeType) (L : String),
      (pyLookup L (get_samples db nodes).1 =
        if L ∈ nodes.map NodeType.label then some (sampleOne db L).1 else none)
    ∧ (∀ e, L ∈ nodes.map NodeType.label →
        db.execute_query (sample_query L) [] = Except.error e →
        pyLookup L (get_samples db nodes).1 = some []) := by
  intro db nodes L
  have hmain : pyLookup L (get_samples db nodes).1 =
      if L ∈ nodes.map NodeType.label then some (sampleOne db L).1 else none := by
    unfold get_samples
    rw [get_samples_lookup db nodes ([], []) L]
    by_cases h : L ∈ nodes.map NodeType.label
    · rw [if_pos h, if_pos h]
    · rw [if_neg h, if_neg h]
      rfl
  refine ⟨hmain, ?_⟩
  intro e hmem herr
  rw [hmain, if_pos hmem, sampleOne_error db L e herr]

set_option maxRecDepth 8192 in
/-- Closed instance of the key-set theorem at the witness executor: the
failing label `P` maps to the empty list, and a label outside the input
nodes is absent. -/
theorem samples_key_set_exact_witness :
    pyLookup "P" (get_samples dbW nsW).1 = some []
  ∧ pyLookup "R" (get_samples dbW nsW).1 = none := by
  constructor
  · exact (samples_key_set_exact dbW nsW "P").2 "boom" (by decide) rfl
  · rw [(samples_key_set_exact dbW nsW "R").1, if_neg (by decide)]

/-- C2: when every mandatory query succeeds, `get_all_data` returns a
complete model no matter which optional introspection queries raise: a
failing index query degrades `indexes` to `[]` with a warning naming the
facet logged, a failing per-label sampling query degrades only that
label's sample list to `[]` (with its warning logged), and every label's
entry is its own independently computed sample result, so one label's
failure never disturbs another's. -/
theorem optional_facets_fault_isolated :
    ∀ (db : DB) (info : DatabaseInfo) (ns : List NodeType) (rels : List RelationshipType),
      get_database_info db = Except.ok info →
      get_nodes db = Except.ok ns →
      get_relationships db = Except.ok rels →
      ∃ out : ExtractedData × List String,
        get_all_data db = Except.ok out
        ∧ out.1.nodes = ns ∧ out.1.relationships = rels
        ∧ (∀ e, db.execute_query indexes_query [] = Except.error e →
            out.1.indexes = [] ∧ indexWarning e ∈ out.2)
        ∧ (∀ L e, L ∈ ns.map NodeType.label →
            db.execute_query (sample_query L) [] = Except.error e →
            pyLookup L out.1.samples = some [] ∧ sampleWarning L e ∈ out.2)
        ∧ (∀ L, L ∈ ns.map NodeType.label →
            pyLookup L out.1.samples = some (sampleOne db L).1) := by
  intro db info ns rels hinfo hnodes hrels
  refine ⟨({ version := info.version, db_name := info.db_name, db_size := info.db_size,
             nodes := ns, relationships := rels,
             samples := (get_samples db ns).1, indexes := (get_indexes db).1,
             constraints := (get_constraints db).1, procedures := (get_procedures db).1 },
           (get_samples db ns).2 ++ (get_indexes db).2 ++
             (get_constraints db).2 ++ (get_procedures db).2),
         ?_, rfl, rfl, ?_, ?_, ?_⟩
  · unfold get_all_data
    rw [hinfo, except_bind_ok, hnodes, except_bind_ok, hrels, except_bind_ok]
    rfl
  · intro e he
    have hidx : get_indexes db = ([], [indexWarning e]) := by
      unfold get_indexes
      rw [he]
    rw [hidx]
    exact ⟨rfl, by simp [List.mem_append]⟩
  · intro L e hmem herr
    constructor
    · show pyLookup L (get_samples db ns).1 = some []
      unfold get_samples
      rw [get_samples_lookup db ns ([], []) L, if_pos hmem, sampleOne_error db L e herr]
    · have hsnd : (get_samples db ns).2 = ns.flatMap (fun n => (sampleOne db n.label).2) := by
        unfold get_samples
        rw [get_samples_snd db ns ([], [])]
        rfl
      obtain ⟨n, hn, hlab⟩ := List.mem_map.mp hmem
      have hmem2 : sampleWarning L e ∈ (get_samples db ns).2 := by
        rw [hsnd]
        refine List.mem_flatMap.mpr ⟨n, hn, ?_⟩
        rw [hlab, sampleOne_error db L e herr]
        exact List.mem_singleton.mpr rfl
      show sampleWarning L e ∈ (get_samples db ns).2 ++ (get_indexes db).2 ++
        (get_constraints db).2 ++ (get_procedures db).2
      simp [List.mem_append, hmem2]
  · intro L hmem
    show pyLookup L (get_samples db ns).1 = some (sampleOne db L).1
    unfold get_samples
    rw [get_samples_lookup db ns ([], []) L, if_pos hmem]

set_option maxRecDepth 8192 in
/-- Closed instance of the fault-isolation theorem at the witness
executor, where sampling label `P` and the index query both raise while
everything mandatory succeeds: `get_all_data` still returns, with `P`'s
samples and the indexes degraded to empty and both warnings logged, and
label `Q`'s samples intact. -/
theorem optional_facets_fault_isolated_witness :
    get_all_data dbW = Except.ok
      (dataW, [sampleWarning "P" "boom", indexWarning "unsupported"]) := by
  obtain ⟨out, h1, -⟩ :=
    optional_facets_fault_isolated dbW infoW nsW relsW rfl rfl rfl
  exact rfl

theorem charListLe_total : ∀ as bs : List Char,
    charListLe as bs = true ∨ charListLe bs as = true := by
  intro as
  induction as with
  | nil => intro bs; exact Or.inl rfl
  | cons a as' ih =>
    intro bs
    cases bs with
    | nil => exact Or.inr rfl
    | cons b bs' =>
      by_cases hab : a < b
      · exact Or.inl (by simp [charListLe, hab])
      · by_cases hba : b < a
        · exact Or.inr (by simp [charListLe, hba])
        · rcases ih bs' with h | h
          · exact Or.inl (by simp [charListLe, hab, hba, h])
          · exact Or.inr (by simp [charListLe, hab, hba, h])

theorem charListLe_trans : ∀ as bs cs : List Char,
    charListLe as bs = true → charListLe bs cs = true → charListLe as cs = true := by
  intro as
  induction as with
  | nil => intro bs cs _ _; rfl
  | cons a as' ih =>
    intro bs cs h1 h2
    cases bs with
    | nil => simp [charListLe] at h1
    | cons b bs' =>
      cases cs with
      | nil => simp [charListLe] at h2
      | cons c cs' =>
        by_cases hab : a < b
        · by_cases hbc : b < c
          · simp [charListLe, lt_trans hab hbc]
          · by_cases hcb : c < b
            · simp [charListLe, hbc, hcb] at h2
            · have heq : b = c := le_antisymm (not_lt.mp hcb) (not_lt.mp hbc)
              subst heq
              simp [charListLe, hab]
        · by_cases hba : b < a
          · simp [charListLe, hab, hba] at h1
          · have heq : a = b := le_antisymm (not_lt.mp hba) (not_lt.mp hab)
            subst heq
            simp only [charListLe, lt_irrefl, if_false] at h1 h2 ⊢
            by_cases hac : a < c
            · simp [hac]
            · by_cases hca : c < a
              · simp [hca] at h2
                exact absurd h2 hac
              · simp [hac, hca] at h1 h2 ⊢
                exact ih bs' cs' h1 h2

theorem charListLe_iff : ∀ as bs : List Char,
    charListLe as bs = true ↔ ¬ List.Lex (· < ·) bs as := by
  intro as
  induction as with
  | nil =>
    intro bs
    constructor
    · intro _ hlex
      cases hlex
    · intro _
      rfl
  | cons a as' ih =>
    intro bs
    cases bs with
    | nil =>
      constructor
      · intro h
        simp [charListLe] at h
      · intro h
        exact absurd List.Lex.nil h
    | cons b bs' =>
      by_cases hab : a < b
      · constructor
        · intro _ hlex
          cases hlex with
          | cons h2 => exact absurd hab (lt_irrefl _)
          | rel h2 => exact absurd h2 (lt_asymm hab)
        · intro _
          simp [charListLe, hab]
      · by_cases hba : b < a
        · constructor
          · intro h
            simp [charListLe, hab, hba] at h
          · intro h
            exact absurd (List.Lex.rel hba) h
        · have heq : a = b := le_antisymm (not_lt.mp hba) (not_lt.mp hab)
          subst heq
          rw [show charListLe (a :: as') (a :: bs') = charListLe as' bs' by
            simp [charListLe, lt_irrefl]]
          rw [ih bs']
          constructor
          · intro h hlex
            cases hlex with
            | cons h2 => exact h h2
            | rel h2 => exact absurd h2 (lt_irrefl a)
          · intro h hlex
            exact h (List.Lex.cons hlex)

theorem strLeb_iff_le (a b : String) : strLeb a b = true ↔ a ≤ b := by
  rw [strLeb, charListLe_iff a.data b.data, ← not_lt]
  apply not_congr
  constructor
  · intro hlex
    rw [String.lt_iff_toList_lt]
    exact hlex
  · intro hlt
    exact String.lt_iff_toList_lt.mp hlt

theorem mem_pySetAdd (k k' : String) (acc : List String) :
    k ∈ pySetAdd acc k' ↔ k ∈ acc ∨ k = k' := by
  unfold pySetAdd
  by_cases h : k' ∈ acc
  · rw [if_pos h]
    constructor
    · exact Or.inl
    · rintro (h1 | h1)
      · exact h1
      · exact h1 ▸ h
  · rw [if_neg h]
    simp [List.mem_append]

theorem nodup_pySetAdd (k' : String) (acc : List String) (h : acc.Nodup) :
    (pySetAdd acc k').Nodup := by
  unfold pySetAdd
  by_cases hm : k' ∈ acc
  · rw [if_pos hm]
    exact h
  · rw [if_neg hm]
    simp [List.nodup_append, h, hm]

theorem mem_pySetUpdate : ∀ (ks acc : List String) (k : String),
    k ∈ pySetUpdate acc ks ↔ k ∈ acc ∨ k ∈ ks := by
  intro ks
  induction ks with
  | nil =>
    intro acc k
    simp [pySetUpdate]
  | cons k0 ks' ih =>
    intro acc k
    show k ∈ pySetUpdate (pySetAdd acc k0) ks' ↔ _
    rw [ih, mem_pySetAdd]
    simp only [List.mem_cons]
    tauto

theorem nodup_pySetUpdate : ∀ (ks acc : List String),
    acc.Nodup → (pySetUpdate acc ks).Nodup := by
  intro ks
  induction ks with
  | nil =>
    intro acc h
    exact h
  | cons k0 ks' ih =>
    intro acc h
    exact ih _ (nodup_pySetAdd k0 acc h)

theorem mem_collectKeys : ∀ (samples : List Record) (acc : List String) (k : String),
    k ∈ collectKeys samples acc ↔ k ∈ acc ∨ ∃ sample ∈ samples, k ∈ sample.map Prod.fst := by
  intro samples
  induction samples with
  | nil =>
    intro acc k
    simp [collectKeys]
  | cons sample rest ih =>
    intro acc k
    show k ∈ collectKeys rest (pySetUpdate acc (sample.map Prod.fst)) ↔ _
    rw [ih, mem_pySetUpdate]
    constructor
    · rintro ((h | h) | h)
      · exact Or.inl h
      · exact Or.inr ⟨sample, List.mem_cons_self sample rest, h⟩
      · obtain ⟨s, hs, hk⟩ := h
        exact Or.inr ⟨s, List.mem_cons_of_mem _ hs, hk⟩
    · rintro (h | ⟨s, hs, hk⟩)
      · exact Or.inl (Or.inl h)
      · rcases List.mem_cons.mp hs with h1 | h1
        · exact Or.inl (Or.inr (h1 ▸ hk))
        · exact Or.inr ⟨s, h1, hk⟩

theorem nodup_collectKeys : ∀ (samples : List Record) (acc : List String),
    acc.Nodup → (collectKeys samples acc).Nodup := by
  intro samples
  induction samples with
  | nil =>
    intro acc h
    exact h
  | cons sample rest ih =>
    intro acc h
    exact ih _ (nodup_pySetUpdate _ _ h)

/-- C5: the sample table's column set is the lexicographically sorted,
duplicate-free union of the keys of all of the label's sampled records —
not just the first record's — and a record missing a column's key
renders that cell as the empty string, while a present key renders its
escaped value; the claim's example `{a: 1}`, `{b: 2}` produces columns
`[a, b]` with rows `[1, ""]` and `["", 2]`. -/
theorem sample_table_columns_union :
    (∀ samples : List Record,
        (all_keys_of samples).Sorted (fun a b => a ≤ b)
      ∧ (all_keys_of samples).Nodup
      ∧ (∀ k, k ∈ all_keys_of samples ↔ ∃ sample ∈ samples, k ∈ sample.map Prod.fst))
  ∧ (∀ (sample : Record) (k : String), pyLookup k sample = none → sample_cell sample k = "")
  ∧ (∀ (sample : Record) (k : String) (v : Value),
      pyLookup k sample = some v → sample_cell sample k = escape_markdown v)
  ∧ all_keys_of [[("a", Value.vint 1)], [("b", Value.vint 2)]] = ["a", "b"]
  ∧ sample_row ["a", "b"] [("a", Value.vint 1)] = ["1", ""]
  ∧ sample_row ["a", "b"] [("b", Value.vint 2)] = ["", "2"]
  ∧ sample_table [[("a", Value.vint 1)], [("b", Value.vint 2)]] =
      "| a | b |\n| ---- | ---- |\n| 1 |  |\n|  | 2 |\n" := by
  refine ⟨?_, ?_, ?_, rfl, rfl, rfl, rfl⟩
  · intro samples
    have hperm := List.perm_insertionSort (fun a b : String => strLeb a b = true)
      (collectKeys samples [])
    refine ⟨?_, ?_, ?_⟩
    · have htot : IsTotal String (fun a b : String => strLeb a b = true) :=
        ⟨fun a b => charListLe_total a.data b.data⟩
      have htrans : IsTrans String (fun a b : String => strLeb a b = true) :=
        ⟨fun a b c h1 h2 => charListLe_trans a.data b.data c.data h1 h2⟩
      have hs := @List.sorted_insertionSort String (fun a b : String => strLeb a b = true)
        (fun a b => instDecidableEqBool (strLeb a b) true) htot htrans
        (collectKeys samples [])
      exact List.Pairwise.imp (fun h => (strLeb_iff_le _ _).mp h) hs
    · exact (hperm.nodup_iff).mpr (nodup_collectKeys samples [] List.nodup_nil)
    · intro k
      rw [show all_keys_of samples =
          List.insertionSort (fun a b : String => strLeb a b = true)
            (collectKeys samples []) from rfl]
      rw [hperm.mem_iff, mem_collectKeys samples [] k]
      simp
  · intro sample k h
    unfold sample_cell pyGet
    rw [h]
    rfl
  · intro sample k v h
    unfold sample_cell pyGet
    rw [h]

/-- Closed instance of the sample-table theorem: a missing key renders an
empty cell, a present key renders its escaped value. -/
theorem sample_table_columns_union_witness :
    sample_cell [("a", Value.vint 1)] "b" = ""
  ∧ sample_cell [("a", Value.vint 1)] "a" = escape_markdown (Value.vint 1) :=
  ⟨sample_table_columns_union.2.1 [("a", Value.vint 1)] "b" rfl,
   sample_table_columns_union.2.2.1 [("a", Value.vint 1)] "a" (Value.vint 1) rfl⟩

end Neo4jXRay
